import Mathlib

/-!
Shallow embedding of `jwk-keygen` (`src/main.go`).

The program's core is:
* `KeygenSig` / `KeygenEnc` — per-algorithm validation of the requested bit
  length followed by key generation from `crypto/rand`;
* the output-file naming and permission policy of `main`;
* `writeNewFile` — exclusive file creation with short-write detection.

Randomness is modelled by an `Option Nat` parameter: `some s` stands for a
successful draw from `rand.Reader` (the abstract seed `s` determines the key
material), `none` for a failing random source.  The Go generators
`ecdsa.GenerateKey` / `rsa.GenerateKey` return `(nil, err)` on such a failure,
and `return key.Public(), key, err` then dereferences the nil pointer inside
`Public()`; the embedding records that outcome as `KeygenResult.nilPanic`.
-/

namespace JwkKeygen

/-- The `--use` flag: `"sig"` or `"enc"`. -/
inductive Use
  | sig
  | enc
deriving DecidableEq

/-- The enumerated values of the `--alg` flag (`src/main.go` lines 44-51). -/
inductive Alg
  | ES256 | ES384 | ES512 | EdDSA
  | RS256 | RS384 | RS512 | PS256 | PS384 | PS512
  | RSA1_5 | RSA_OAEP | RSA_OAEP_256
  | ECDH_ES | ECDH_ES_A128KW | ECDH_ES_A192KW | ECDH_ES_A256KW
deriving DecidableEq

/-- The string value of each `jose` algorithm constant (RFC 7518 names). -/
def algStr : Alg → String
  | .ES256 => "ES256"
  | .ES384 => "ES384"
  | .ES512 => "ES512"
  | .EdDSA => "EdDSA"
  | .RS256 => "RS256"
  | .RS384 => "RS384"
  | .RS512 => "RS512"
  | .PS256 => "PS256"
  | .PS384 => "PS384"
  | .PS512 => "PS512"
  | .RSA1_5 => "RSA1_5"
  | .RSA_OAEP => "RSA-OAEP"
  | .RSA_OAEP_256 => "RSA-OAEP-256"
  | .ECDH_ES => "ECDH-ES"
  | .ECDH_ES_A128KW => "ECDH-ES+A128KW"
  | .ECDH_ES_A192KW => "ECDH-ES+A192KW"
  | .ECDH_ES_A256KW => "ECDH-ES+A256KW"

/-- The string value of the `--use` flag. -/
def useStr : Use → String
  | .sig => "sig"
  | .enc => "enc"

/-- The NIST curves used by the program (`elliptic.P256/P384/P521`). -/
inductive Curve
  | P256
  | P384
  | P521
deriving DecidableEq

/-- Abstract private keys: the scheme parameters plus the seed drawn from the
random source that determined the key material. -/
inductive PrivKey
  | ecdsa (c : Curve) (seed : Nat)
  | rsa (bits : Int) (seed : Nat)
  | ed25519 (seed : Nat)
deriving DecidableEq

/-- Abstract public keys, mirroring `PrivKey`. -/
inductive PubKey
  | ecdsaPub (c : Curve) (seed : Nat)
  | rsaPub (bits : Int) (seed : Nat)
  | ed25519Pub (seed : Nat)
deriving DecidableEq

/-- The typed errors the program can produce (§7 of the spec names them
`UnsupportedKeySize`, `KeyTooShort`, `UnsupportedCurveSize`,
`UnknownAlgorithm`, `RandomSourceFailure`, `FileAlreadyExists`,
`ShortWrite`). -/
inductive GoErr
  | unsupportedKeySize
  | keyTooShort
  | unsupportedCurveSize
  | unknownAlgorithm (u : Use)
  | randFailure
  | fileAlreadyExists
  | shortWrite
deriving DecidableEq

/-- The exact `errors.New` message of each validation error in `src/main.go`
(the other three kinds originate in the standard library). -/
def errMsg : GoErr → Option String
  | .unsupportedKeySize => some "this `alg` does not support arbitrary key length"
  | .keyTooShort => some "too short key for RSA `alg`, 2048+ is required"
  | .unsupportedCurveSize => some "unknown elliptic curve bit length, use one of 256, 384, 521"
  | .unknownAlgorithm .sig => some "unknown `alg` for `use` = `sig`"
  | .unknownAlgorithm .enc => some "unknown `alg` for `use` = `enc`"
  | _ => none

/-- Outcome of a call to `KeygenSig`/`KeygenEnc`: either the Go triple
`(crypto.PublicKey, crypto.PrivateKey, error)` (nil modelled by `none`), or a
nil-pointer panic raised while building the return value. -/
inductive KeygenResult
  | ret (pub : Option PubKey) (priv : Option PrivKey) (err : Option GoErr)
  | nilPanic
deriving DecidableEq

/-- Models `key.Public()` for our abstract keys. -/
def privToPub : PrivKey → PubKey
  | .ecdsa c s => .ecdsaPub c s
  | .rsa b s => .rsaPub b s
  | .ed25519 s => .ed25519Pub s

/-- Models `ecdsa.GenerateKey(crv, rand.Reader)`: a fresh key on success, `(nil, err)`
when the random source fails. -/
def ecdsaGenerateKey (c : Curve) (r : Option Nat) : Option PrivKey × Option GoErr :=
  match r with
  | some s => (some (.ecdsa c s), none)
  | none => (none, some .randFailure)

/-- Models `rsa.GenerateKey(rand.Reader, bits)`. -/
def rsaGenerateKey (bits : Int) (r : Option Nat) : Option PrivKey × Option GoErr :=
  match r with
  | some s => (some (.rsa bits s), none)
  | none => (none, some .randFailure)

/-- Models `ed25519.GenerateKey(rand.Reader)`: returns the pair `(pub, priv, err)`
directly, with both keys nil on failure. -/
def ed25519GenerateKey (r : Option Nat) : Option PubKey × Option PrivKey × Option GoErr :=
  match r with
  | some s => (some (.ed25519Pub s), some (.ed25519 s), none)
  | none => (none, none, some .randFailure)

/-- The statement `return key.Public(), key, err`: when `key` is nil (the
generator failed), `key.Public()` dereferences a nil pointer and panics, so the
error is never returned. -/
def returnKeyPub : Option PrivKey × Option GoErr → KeygenResult
  | (some k, e) => .ret (some (privToPub k)) (some k) e
  | (none, _) => .nilPanic

/-- The `keylen` map of `KeygenSig` (lines 63-68); Go map lookup yields the
zero value `0` for keys not in the map. -/
def sigKeylen : Alg → Int
  | .ES256 => 256
  | .ES384 => 384
  | .ES512 => 521
  | .EdDSA => 256
  | _ => 0

/-- Embeds `KeygenSig` (lines 60-102): the first `switch` validates/rewrites `bits`
(an early error return is the `.error` branch), the second dispatches to the
generator. -/
def KeygenSig (a : Alg) (bits : Int) (r : Option Nat) : KeygenResult :=
  let check : Except GoErr Int :=
    match a with
    | .ES256 | .ES384 | .ES512 | .EdDSA =>
      if bits ≠ 0 ∧ bits ≠ sigKeylen a then .error .unsupportedKeySize else .ok bits
    | .RS256 | .RS384 | .RS512 | .PS256 | .PS384 | .PS512 =>
      let b := if bits = 0 then 2048 else bits
      if b < 2048 then .error .keyTooShort else .ok b
    | _ => .ok bits
  match check with
  | .error e => .ret none none (some e)
  | .ok b =>
    match a with
    | .ES256 => returnKeyPub (ecdsaGenerateKey .P256 r)
    | .ES384 => returnKeyPub (ecdsaGenerateKey .P384 r)
    | .ES512 => returnKeyPub (ecdsaGenerateKey .P521 r)
    | .EdDSA =>
      match ed25519GenerateKey r with
      | (pub, key, e) => .ret pub key e
    | .RS256 | .RS384 | .RS512 | .PS256 | .PS384 | .PS512 =>
      returnKeyPub (rsaGenerateKey b r)
    | _ => .ret none none (some (.unknownAlgorithm .sig))

/-- Embeds `KeygenEnc` (lines 105-133). -/
def KeygenEnc (a : Alg) (bits : Int) (r : Option Nat) : KeygenResult :=
  match a with
  | .RSA1_5 | .RSA_OAEP | .RSA_OAEP_256 =>
    let b := if bits = 0 then 2048 else bits
    if b < 2048 then .ret none none (some .keyTooShort)
    else returnKeyPub (rsaGenerateKey b r)
  | .ECDH_ES | .ECDH_ES_A128KW | .ECDH_ES_A192KW | .ECDH_ES_A256KW =>
    if bits = 0 ∨ bits = 256 then returnKeyPub (ecdsaGenerateKey .P256 r)
    else if bits = 384 then returnKeyPub (ecdsaGenerateKey .P384 r)
    else if bits = 521 then returnKeyPub (ecdsaGenerateKey .P521 r)
    else .ret none none (some .unsupportedCurveSize)
  | _ => .ret none none (some (.unknownAlgorithm .enc))

/-- The result the fixed-size signature algorithms are expected to produce on
a successful draw: a key pair on the fixed scheme of the algorithm. -/
def fixedSigSuccess : Alg → Nat → KeygenResult
  | .ES256, s => .ret (some (.ecdsaPub .P256 s)) (some (.ecdsa .P256 s)) none
  | .ES384, s => .ret (some (.ecdsaPub .P384 s)) (some (.ecdsa .P384 s)) none
  | .ES512, s => .ret (some (.ecdsaPub .P521 s)) (some (.ecdsa .P521 s)) none
  | .EdDSA, s => .ret (some (.ed25519Pub s)) (some (.ed25519 s)) none
  | _, _ => .nilPanic

/-- Expected result of a successful RSA generation at modulus size `b`. -/
def rsaSuccess (b : Int) (s : Nat) : KeygenResult :=
  .ret (some (.rsaPub b s)) (some (.rsa b s)) none

/-- Expected result of a successful ECDSA generation on curve `c`. -/
def ecSuccess (c : Curve) (s : Nat) : KeygenResult :=
  .ret (some (.ecdsaPub c s)) (some (.ecdsa c s)) none

example : KeygenSig .ES256 0 (some 7) =
    .ret (some (.ecdsaPub .P256 7)) (some (.ecdsa .P256 7)) none := by decide

example : KeygenSig .ES512 521 (some 7) =
    .ret (some (.ecdsaPub .P521 7)) (some (.ecdsa .P521 7)) none := by decide

example : KeygenSig .ES512 512 (some 7) = .ret none none (some .unsupportedKeySize) := by
  decide

example : KeygenSig .EdDSA 0 none = .ret none none (some .randFailure) := by decide

example : KeygenSig .ES256 0 none = .nilPanic := by decide

example : KeygenSig .RS256 0 (some 3) =
    .ret (some (.rsaPub 2048 3)) (some (.rsa 2048 3)) none := by decide

example : KeygenSig .RS256 1024 (some 3) = .ret none none (some .keyTooShort) := by decide

example : KeygenSig .RSA1_5 1 (some 3) =
    .ret none none (some (.unknownAlgorithm .sig)) := by decide

example : KeygenEnc .ECDH_ES 999 (some 3) =
    .ret none none (some .unsupportedCurveSize) := by decide

example : KeygenEnc .ECDH_ES 384 (some 3) =
    .ret (some (.ecdsaPub .P384 3)) (some (.ecdsa .P384 3)) none := by decide

example : KeygenEnc .ES256 0 (some 3) =
    .ret none none (some (.unknownAlgorithm .enc)) := by decide

/-- C1: for every curve-based or EdDSA signature algorithm, `KeygenSig` with
requested bits equal to `0` or to the fixed table value (ES256→256, ES384→384,
ES512→521, EdDSA→256) passes validation and generates a key on exactly that
fixed-size scheme (P-256 / P-384 / P-521 / Ed25519), while any other nonzero
bits value is rejected with the `UnsupportedKeySize` error and no key is
produced. -/
theorem c1_fixed_size_sig (a : Alg) (bits : Int) (s : Nat) (r : Option Nat)
    (ha : a = .ES256 ∨ a = .ES384 ∨ a = .ES512 ∨ a = .EdDSA) :
    ((bits = 0 ∨ bits = sigKeylen a) →
      KeygenSig a bits (some s) = fixedSigSuccess a s) ∧
    (bits ≠ 0 → bits ≠ sigKeylen a →
      KeygenSig a bits r = .ret none none (some .unsupportedKeySize)) := by
  rcases ha with rfl | rfl | rfl | rfl <;>
    refine ⟨fun hb => ?_, fun h0 hk => ?_⟩ <;>
    [ (rcases hb with rfl | rfl <;> rfl); skip;
      (rcases hb with rfl | rfl <;> rfl); skip;
      (rcases hb with rfl | rfl <;> rfl); skip;
      (rcases hb with rfl | rfl <;> rfl); skip ] <;>
  · simp only [KeygenSig, sigKeylen] at hk ⊢
    rw [if_pos ⟨h0, hk⟩]

/-- Witness for `c1_fixed_size_sig` at concrete inputs. -/
theorem c1_fixed_size_sig_witness :
    KeygenSig .ES512 0 (some 7) = fixedSigSuccess .ES512 7 ∧
    KeygenSig .ES512 512 (some 7) = .ret none none (some .unsupportedKeySize) :=
  ⟨(c1_fixed_size_sig .ES512 0 7 (some 7) (by decide)).1 (Or.inl rfl),
   (c1_fixed_size_sig .ES512 512 7 (some 7) (by decide)).2 (by decide) (by decide)⟩

/-- C2: for every RSA-based algorithm — RS256/RS384/RS512/PS256/PS384/PS512
under `KeygenSig` and RSA1_5/RSA-OAEP/RSA-OAEP-256 under `KeygenEnc` — bits 0
resolves to a 2048-bit modulus, any other bits below 2048 (including negative
values) is rejected with the `KeyTooShort` error, and bits at or above 2048 is
used as the modulus size. -/
theorem c2_rsa_sizes (a : Alg) (bits : Int) (s : Nat) (r : Option Nat) :
    ((a = .RS256 ∨ a = .RS384 ∨ a = .RS512 ∨ a = .PS256 ∨ a = .PS384 ∨ a = .PS512) →
      KeygenSig a 0 (some s) = rsaSuccess 2048 s ∧
      (bits ≠ 0 → bits < 2048 → KeygenSig a bits r = .ret none none (some .keyTooShort)) ∧
      (2048 ≤ bits → KeygenSig a bits (some s) = rsaSuccess bits s)) ∧
    ((a = .RSA1_5 ∨ a = .RSA_OAEP ∨ a = .RSA_OAEP_256) →
      KeygenEnc a 0 (some s) = rsaSuccess 2048 s ∧
      (bits ≠ 0 → bits < 2048 → KeygenEnc a bits r = .ret none none (some .keyTooShort)) ∧
      (2048 ≤ bits → KeygenEnc a bits (some s) = rsaSuccess bits s)) := by
  constructor <;> intro ha
  · rcases ha with rfl | rfl | rfl | rfl | rfl | rfl <;>
      refine ⟨rfl, fun h0 hlt => ?_, fun hge => ?_⟩ <;>
      simp only [KeygenSig, if_neg (by omega : ¬ bits = 0)] <;>
      first
        | rw [if_pos (by omega : bits < 2048)]
        | (rw [if_neg (by omega : ¬ bits < 2048)]; rfl)
  · rcases ha with rfl | rfl | rfl <;>
      refine ⟨rfl, fun h0 hlt => ?_, fun hge => ?_⟩ <;>
      simp only [KeygenEnc, if_neg (by omega : ¬ bits = 0)] <;>
      first
        | rw [if_pos (by omega : bits < 2048)]
        | (rw [if_neg (by omega : ¬ bits < 2048)]; rfl)

/-- Witness for `c2_rsa_sizes` at concrete inputs. -/
theorem c2_rsa_sizes_witness :
    KeygenSig .RS256 0 (some 5) = rsaSuccess 2048 5 ∧
    KeygenEnc .RSA_OAEP 1024 (some 5) = .ret none none (some .keyTooShort) :=
  ⟨((c2_rsa_sizes .RS256 1024 5 (some 5)).1 (by decide)).1,
   (((c2_rsa_sizes .RSA_OAEP 1024 5 (some 5)).2 (by decide)).2.1 (by decide) (by decide))⟩

/-- C3: for every ECDH-ES family encryption algorithm, `KeygenEnc` selects
curve P-256 when bits is 0 or 256, P-384 when bits is 384, P-521 when bits is
521, and rejects every other bits value with the `UnsupportedCurveSize` error
without generating a key. -/
theorem c3_ecdh_curves (a : Alg) (bits : Int) (s : Nat) (r : Option Nat)
    (ha : a = .ECDH_ES ∨ a = .ECDH_ES_A128KW ∨ a = .ECDH_ES_A192KW ∨ a = .ECDH_ES_A256KW) :
    ((bits = 0 ∨ bits = 256) → KeygenEnc a bits (some s) = ecSuccess .P256 s) ∧
    (bits = 384 → KeygenEnc a bits (some s) = ecSuccess .P384 s) ∧
    (bits = 521 → KeygenEnc a bits (some s) = ecSuccess .P521 s) ∧
    (bits ≠ 0 → bits ≠ 256 → bits ≠ 384 → bits ≠ 521 →
      KeygenEnc a bits r = .ret none none (some .unsupportedCurveSize)) := by
  rcases ha with rfl | rfl | rfl | rfl <;>
    refine ⟨fun hb => ?_, fun hb => ?_, fun hb => ?_, fun h0 h256 h384 h521 => ?_⟩ <;>
    [ (rcases hb with rfl | rfl <;> rfl); (subst hb; rfl); (subst hb; rfl); skip;
      (rcases hb with rfl | rfl <;> rfl); (subst hb; rfl); (subst hb; rfl); skip;
      (rcases hb with rfl | rfl <;> rfl); (subst hb; rfl); (subst hb; rfl); skip;
      (rcases hb with rfl | rfl <;> rfl); (subst hb; rfl); (subst hb; rfl); skip ] <;>
  · simp only [KeygenEnc]
    rw [if_neg (by tauto : ¬ (bits = 0 ∨ bits = 256)), if_neg h384, if_neg h521]

/-- Witness for `c3_ecdh_curves` at concrete inputs. -/
theorem c3_ecdh_curves_witness :
    KeygenEnc .ECDH_ES_A128KW 521 (some 2) = ecSuccess .P521 2 ∧
    KeygenEnc .ECDH_ES 999 (some 2) = .ret none none (some .unsupportedCurveSize) :=
  ⟨(c3_ecdh_curves .ECDH_ES_A128KW 521 2 (some 2) (by decide)).2.2.1 rfl,
   (c3_ecdh_curves .ECDH_ES 999 2 (some 2) (by decide)).2.2.2
     (by decide) (by decide) (by decide) (by decide)⟩

/-- C9: calling `KeygenSig` with an encryption-family identifier, or
`KeygenEnc` with a signature-family identifier, returns the
`UnknownAlgorithm` error for that use — no key is generated and no size-based
error is reported instead, regardless of `bits`. -/
theorem c9_unknown_alg (a : Alg) (bits : Int) (r : Option Nat) :
    ((a = .RSA1_5 ∨ a = .RSA_OAEP ∨ a = .RSA_OAEP_256 ∨ a = .ECDH_ES ∨
      a = .ECDH_ES_A128KW ∨ a = .ECDH_ES_A192KW ∨ a = .ECDH_ES_A256KW) →
      KeygenSig a bits r = .ret none none (some (.unknownAlgorithm .sig))) ∧
    ((a = .ES256 ∨ a = .ES384 ∨ a = .ES512 ∨ a = .EdDSA ∨ a = .RS256 ∨ a = .RS384 ∨
      a = .RS512 ∨ a = .PS256 ∨ a = .PS384 ∨ a = .PS512) →
      KeygenEnc a bits r = .ret none none (some (.unknownAlgorithm .enc))) := by
  constructor <;> intro ha
  · rcases ha with rfl | rfl | rfl | rfl | rfl | rfl | rfl <;> rfl
  · rcases ha with rfl | rfl | rfl | rfl | rfl | rfl | rfl | rfl | rfl | rfl <;> rfl

/-- Witness for `c9_unknown_alg` at concrete inputs. -/
theorem c9_unknown_alg_witness :
    KeygenSig .ECDH_ES 1000 (some 0) = .ret none none (some (.unknownAlgorithm .sig)) ∧
    KeygenEnc .RS256 1000 (some 0) = .ret none none (some (.unknownAlgorithm .enc)) :=
  ⟨(c9_unknown_alg .ECDH_ES 1000 (some 0)).1 (by decide),
   (c9_unknown_alg .RS256 1000 (some 0)).2 (by decide)⟩

/-- Every outcome of `KeygenSig` is an error return with both keys nil, a
successful return with both keys set and a nil error, or the nil-pointer
panic. -/
theorem KeygenSig_shape (a : Alg) (bits : Int) (r : Option Nat) :
    (∃ e, KeygenSig a bits r = .ret none none (some e)) ∨
    (∃ pk sk, KeygenSig a bits r = .ret (some pk) (some sk) none) ∨
    KeygenSig a bits r = .nilPanic := by
  cases a <;> cases r <;>
    simp only [KeygenSig, returnKeyPub, ecdsaGenerateKey, rsaGenerateKey,
      ed25519GenerateKey, privToPub] <;>
  repeat' first
    | exact Or.inl ⟨_, rfl⟩
    | exact Or.inr (Or.inl ⟨_, _, rfl⟩)
    | exact Or.inr (Or.inr rfl)
    | split

/-- Every outcome of `KeygenEnc` is an error return with both keys nil, a
successful return with both keys set and a nil error, or the nil-pointer
panic. -/
theorem KeygenEnc_shape (a : Alg) (bits : Int) (r : Option Nat) :
    (∃ e, KeygenEnc a bits r = .ret none none (some e)) ∨
    (∃ pk sk, KeygenEnc a bits r = .ret (some pk) (some sk) none) ∨
    KeygenEnc a bits r = .nilPanic := by
  cases a <;> cases r <;>
    simp only [KeygenEnc, returnKeyPub, ecdsaGenerateKey, rsaGenerateKey,
      ed25519GenerateKey, privToPub] <;>
  repeat' first
    | exact Or.inl ⟨_, rfl⟩
    | exact Or.inr (Or.inl ⟨_, _, rfl⟩)
    | exact Or.inr (Or.inr rfl)
    | split

/-- C4: whenever `KeygenSig` or `KeygenEnc` returns an error, the returned key
pair is entirely unset — public and private components are both nil together,
never a partial pair (keygen-call failures that do reach a return, namely the
Ed25519 path, also return both components nil; on the ECDSA/RSA paths a
failing generator instead ends in the nil-pointer panic, which returns
nothing). -/
theorem c4_no_partial_pair (a : Alg) (bits : Int) (r : Option Nat)
    (pub : Option PubKey) (priv : Option PrivKey) (e : GoErr) :
    (KeygenSig a bits r = .ret pub priv (some e) → pub = none ∧ priv = none) ∧
    (KeygenEnc a bits r = .ret pub priv (some e) → pub = none ∧ priv = none) := by
  constructor <;> intro h
  · rcases KeygenSig_shape a bits r with ⟨e', he⟩ | ⟨pk, sk, he⟩ | he <;> rw [he] at h
    · injection h with h1 h2 h3
      exact ⟨h1.symm, h2.symm⟩
    · injection h with h1 h2 h3
      exact Option.noConfusion h3
    · exact KeygenResult.noConfusion h
  · rcases KeygenEnc_shape a bits r with ⟨e', he⟩ | ⟨pk, sk, he⟩ | he <;> rw [he] at h
    · injection h with h1 h2 h3
      exact ⟨h1.symm, h2.symm⟩
    · injection h with h1 h2 h3
      exact Option.noConfusion h3
    · exact KeygenResult.noConfusion h

/-- Witness for `c4_no_partial_pair`: the Ed25519 path with a failing random
source returns an error and both components nil. -/
theorem c4_no_partial_pair_witness :
    (none : Option PubKey) = none ∧ (none : Option PrivKey) = none :=
  (c4_no_partial_pair .EdDSA 0 none none none .randFailure).1 (by decide)

/-! ## The exclusive file writer (`writeNewFile`, lines 264-277) -/

/-- A file on disk: its byte contents and its permission bits. -/
structure FileEntry where
  bytes : List Nat
  perm : Nat
deriving DecidableEq

/-- The file system: a partial map from path to file. -/
def FS : Type := String → Option FileEntry

/-- The behaviour of the operating system during one `writeNewFile` call:
how many bytes `f.Write(data)` reports written, the error it returns, and the
error `f.Close()` returns.  `Write` never reports more bytes than it was
given, which the model enforces with `min`. -/
structure DiskOutcome where
  written : Nat
  writeErr : Option GoErr
  closeErr : Option GoErr
deriving DecidableEq

/-- Embeds `writeNewFile(filename, data, perm)`: `os.OpenFile` with
`O_WRONLY|O_CREATE|O_EXCL` fails if the path exists (nothing written, no fd to
close); otherwise the file is created with `perm`, `f.Write` stores the bytes
it reports written, a short count with no error becomes `io.ErrShortWrite`,
and `f.Close` is called on every path, its error surfacing only when no
earlier error occurred.  Result: the file system afterwards, the returned
error, and whether the opened descriptor was closed. -/
def writeNewFile (fs : FS) (filename : String) (data : List Nat) (perm : Nat)
    (io : DiskOutcome) : FS × Option GoErr × Bool :=
  match fs filename with
  | some _ => (fs, some .fileAlreadyExists, false)
  | none =>
    let n := min io.written data.length
    let fs' : FS := fun p => if p = filename then some ⟨data.take n, perm⟩ else fs p
    let err := io.writeErr
    let err := if err = none ∧ n < data.length then some .shortWrite else err
    let err := if err = none then io.closeErr else err
    (fs', err, true)

/-- C5: for every path that already exists, `writeNewFile` fails with the
file-already-exists error and writes nothing — the whole file system, hence
the existing file's contents and permissions, is exactly what it was before
the call. -/
theorem c5_no_overwrite (fs : FS) (filename : String) (data : List Nat)
    (perm : Nat) (io : DiskOutcome) (f : FileEntry) (h : fs filename = some f) :
    writeNewFile fs filename data perm io = (fs, some .fileAlreadyExists, false) ∧
    (writeNewFile fs filename data perm io).1 filename = some f := by
  have hw : writeNewFile fs filename data perm io = (fs, some .fileAlreadyExists, false) := by
    unfold writeNewFile
    rw [h]
  exact ⟨hw, by rw [hw]; exact h⟩

/-- Witness for `c5_no_overwrite` on a one-file file system. -/
theorem c5_no_overwrite_witness :
    writeNewFile (fun p => if p = "a.json" then some ⟨[1], 0o444⟩ else none)
        "a.json" [2, 3] 0o400 ⟨2, none, none⟩ =
      ((fun p => if p = "a.json" then some ⟨[1], 0o444⟩ else none), some .fileAlreadyExists, false) ∧
    (writeNewFile (fun p => if p = "a.json" then some ⟨[1], 0o444⟩ else none)
        "a.json" [2, 3] 0o400 ⟨2, none, none⟩).1 "a.json" = some ⟨[1], 0o444⟩ :=
  c5_no_overwrite _ "a.json" [2, 3] 0o400 ⟨2, none, none⟩ ⟨[1], 0o444⟩ (by simp)

/-- C6: on a successfully opened (fresh) path the descriptor is always closed,
and the returned error is the write error if any; otherwise `ShortWrite` if
fewer bytes than the payload length were written; otherwise the close error;
otherwise success. -/
theorem c6_error_priority (fs : FS) (filename : String) (data : List Nat)
    (perm : Nat) (io : DiskOutcome) (h : fs filename = none) :
    (writeNewFile fs filename data perm io).2.2 = true ∧
    (writeNewFile fs filename data perm io).2.1 =
      (match io.writeErr with
       | some e => some e
       | none =>
         if min io.written data.length < data.length then some .shortWrite
         else io.closeErr) := by
  unfold writeNewFile
  rw [h]
  refine ⟨rfl, ?_⟩
  rcases hw : io.writeErr with _ | e
  · by_cases hn : min io.written data.length < data.length
    · simp [hw, hn]
    · simp [hw, hn]
  · simp [hw]

/-- Witness for `c6_error_priority`: a short write on an empty file system is
reported as `ShortWrite` and the descriptor is closed. -/
theorem c6_error_priority_witness :
    (writeNewFile (fun _ => none) "b.json" [1, 2, 3] 0o400 ⟨2, none, none⟩).2.2 = true ∧
    (writeNewFile (fun _ => none) "b.json" [1, 2, 3] 0o400 ⟨2, none, none⟩).2.1 =
      (match (none : Option GoErr) with
       | some e => some e
       | none =>
         if min 2 [1, 2, 3].length < [1, 2, 3].length then some GoErr.shortWrite
         else none) :=
  c6_error_priority (fun _ => none) "b.json" [1, 2, 3] 0o400 ⟨2, none, none⟩ rfl

/-! ## Output naming (`main`, lines 220-251) -/

/-- The files `main` writes when a KeyID is present (lines 235-251), in
order: for the single-key form `fname := fmt.Sprintf("jwk_%s_%s_%s", use,
alg, kid)`, the public artifact `fname+"-pub.json"` with permission `0444`
and the private artifact `fname+".json"` with permission `0400`; when the
`--jwks` flag is set the same again with the `jwks_` prefix. -/
def mainArtifacts (use alg kid : String) (jwksFlag : Bool) : List (String × Nat) :=
  let fname := "jwk_" ++ use ++ "_" ++ alg ++ "_" ++ kid
  [(fname ++ "-pub.json", 0o444), (fname ++ ".json", 0o400)] ++
    (if jwksFlag then
      let fname := "jwks_" ++ use ++ "_" ++ alg ++ "_" ++ kid
      [(fname ++ "-pub.json", 0o444), (fname ++ ".json", 0o400)]
    else [])

/-- Modelled from the spec's words (§4.3): the artifact name is the three
fields use, algorithm, keyId concatenated with the fixed delimiter `_` in
that order, prefixed by the kind tag, public artifacts carrying the `-pub`
suffix before the `.json` extension. -/
def specArtifactName (kind use alg kid : String) (pub : Bool) : String :=
  kind ++ "_" ++ use ++ "_" ++ alg ++ "_" ++ kid ++
    (if pub then "-pub.json" else ".json")

/-- C7: with a KeyID present the program writes the public artifact to
`<kind>_<use>_<alg>_<kid>-pub.json` with permission 0444 and the private
artifact to `<kind>_<use>_<alg>_<kid>.json` with permission 0400, with kind
`jwk` for the single-key form and `jwks` for the key-set form, the three
fields joined by `_` in the order use, algorithm, keyId. -/
theorem c7_artifact_names (use alg kid : String) (jwksFlag : Bool) :
    mainArtifacts use alg kid jwksFlag =
      [(specArtifactName "jwk" use alg kid true, 0o444),
       (specArtifactName "jwk" use alg kid false, 0o400)] ++
        (if jwksFlag then
          [(specArtifactName "jwks" use alg kid true, 0o444),
           (specArtifactName "jwks" use alg kid false, 0o400)]
        else []) := by
  cases jwksFlag <;> rfl

/-! ## The random KeyID (`main`, lines 163-172 and 220) -/

/-- The base-32 standard alphabet used by `encoding/base32.StdEncoding`. -/
def base32Alphabet : List Char := "ABCDEFGHIJKLMNOPQRSTUVWXYZ234567".data

/-- The alphabet character for a 5-bit group. -/
def b32char (n : Nat) : Char := base32Alphabet.getD (n % 32) 'A'

/-- One full 5-byte block of standard base-32: the 40-bit big-endian value is
split into eight 5-bit groups. -/
def b32block (b0 b1 b2 b3 b4 : Nat) : List Char :=
  let v := (b0 % 256) * 2 ^ 32 + (b1 % 256) * 2 ^ 24 + (b2 % 256) * 2 ^ 16 +
    (b3 % 256) * 2 ^ 8 + b4 % 256
  [b32char (v / 2 ^ 35), b32char (v / 2 ^ 30), b32char (v / 2 ^ 25),
   b32char (v / 2 ^ 20), b32char (v / 2 ^ 15), b32char (v / 2 ^ 10),
   b32char (v / 2 ^ 5), b32char v]

/-- Models `base32.StdEncoding.EncodeToString`: full 5-byte blocks produce 8
characters each; a final partial block is zero-filled, keeps
`⌈len*8/5⌉` characters and is padded with `=` to 8. -/
def base32Chars : List Nat → List Char
  | [] => []
  | b0 :: b1 :: b2 :: b3 :: b4 :: rest => b32block b0 b1 b2 b3 b4 ++ base32Chars rest
  | bs =>
    (b32block (bs.getD 0 0) (bs.getD 1 0) (bs.getD 2 0) (bs.getD 3 0)
        (bs.getD 4 0)).take ((bs.length * 8 + 4) / 5) ++
      List.replicate (8 - (bs.length * 8 + 4) / 5) '='

/-- Console-vs-file dispatch of `main` (line 220): an empty KeyID prints the
documents, a nonempty one writes files. -/
inductive OutMode
  | console
  | files
deriving DecidableEq

/-- Embeds line 220: print to the console when the KeyID is empty, write files otherwise. -/
def mainOutputMode (kid : String) : OutMode :=
  if kid = "" then .console else .files

/-- Lines 163-172: with `--kid-rand` and no explicit `--kid`, the KeyID
becomes the base-32 encoding of the 5 random bytes `b`; combining both flags
is a usage error (`none`); without `--kid-rand` the explicit KeyID stands. -/
def mainEffectiveKid (kidRandFlag : Bool) (kid : String) (b : List Nat) : Option String :=
  if kidRandFlag then
    if kid = "" then some (String.mk (base32Chars b)) else none
  else some kid

example : mainEffectiveKid true "" [104, 101, 108, 108, 111] = some "NBSWY3DP" := by decide

/-- C10: with the generate-random-KeyID flag set and no explicit KeyID, the
generated KeyID is the standard base-32 encoding of the 5 random bytes, hence
exactly 8 characters and nonempty, so the invocation takes the file-writing
branch and never prints to the console. -/
theorem c10_random_kid (b : List Nat) (h : b.length = 5) :
    (base32Chars b).length = 8 ∧
    ∃ kid, mainEffectiveKid true "" b = some kid ∧
      kid = String.mk (base32Chars b) ∧ kid.length = 8 ∧ kid ≠ "" ∧
      mainOutputMode kid = .files := by
  rcases b with _ | ⟨b0, _ | ⟨b1, _ | ⟨b2, _ | ⟨b3, _ | ⟨b4, _ | ⟨b5, t⟩⟩⟩⟩⟩⟩ <;>
    simp only [List.length_nil, List.length_cons] at h <;> try omega
  have hlen : (base32Chars [b0, b1, b2, b3, b4]).length = 8 := by
    simp [base32Chars, b32block]
  refine ⟨hlen, String.mk (base32Chars [b0, b1, b2, b3, b4]), rfl, rfl, ?_, ?_⟩
  · show (base32Chars [b0, b1, b2, b3, b4]).length = 8
    exact hlen
  constructor
  · intro he
    have hd : base32Chars [b0, b1, b2, b3, b4] = [] := congrArg String.data he
    rw [hd] at hlen
    exact absurd hlen (by decide)
  · have hne : String.mk (base32Chars [b0, b1, b2, b3, b4]) ≠ "" := by
      intro he
      have hd : base32Chars [b0, b1, b2, b3, b4] = [] := congrArg String.data he
      rw [hd] at hlen
      exact absurd hlen (by decide)
    simp [mainOutputMode, hne]

/-- Witness for `c10_random_kid` at a concrete 5-byte draw. -/
theorem c10_random_kid_witness :
    (base32Chars [104, 101, 108, 108, 111]).length = 8 ∧
    ∃ kid, mainEffectiveKid true "" [104, 101, 108, 108, 111] = some kid ∧
      kid = String.mk (base32Chars [104, 101, 108, 108, 111]) ∧ kid.length = 8 ∧
      kid ≠ "" ∧ mainOutputMode kid = .files :=
  c10_random_kid [104, 101, 108, 108, 111] rfl

/-! ## Injectivity of the output names (claim C8) -/

/-- The artifact kind: single key (`jwk_` prefix) or key set (`jwks_`). -/
inductive KindTag
  | jwk
  | jwks
deriving DecidableEq

/-- The prefix tag of each artifact kind. -/
def kindStr : KindTag → String
  | .jwk => "jwk"
  | .jwks => "jwks"

/-- The filename suffix: `-pub.json` for the public artifact, `.json` for the
private one. -/
def suffixStr : Bool → String
  | true => "-pub.json"
  | false => ".json"

/-- The complete output filename `main` uses for one artifact. -/
def outName (k : KindTag) (u : Use) (a : Alg) (kid : String) (pub : Bool) : String :=
  kindStr k ++ "_" ++ useStr u ++ "_" ++ algStr a ++ "_" ++ kid ++ suffixStr pub

/-- The name function `outName` is exactly the spec's §4.3 naming scheme. -/
theorem outName_eq_specArtifactName (k : KindTag) (u : Use) (a : Alg)
    (kid : String) (pub : Bool) :
    outName k u a kid pub = specArtifactName (kindStr k) (useStr u) (algStr a) kid pub := by
  cases pub <;> rfl

/-- The name function `outName` enumerates exactly the names `main` writes (lines 235-251). -/
theorem mainArtifacts_outName (u : Use) (a : Alg) (kid : String) (jf : Bool) :
    mainArtifacts (useStr u) (algStr a) kid jf =
      [(outName .jwk u a kid true, 0o444), (outName .jwk u a kid false, 0o400)] ++
        (if jf then
          [(outName .jwks u a kid true, 0o444), (outName .jwks u a kid false, 0o400)]
        else []) := by
  cases jf <;> rfl

/-- The characters of a name up to and including the delimiter before the
KeyID. -/
def outPfxData (k : KindTag) (u : Use) (a : Alg) : List Char :=
  (kindStr k ++ "_" ++ useStr u ++ "_" ++ algStr a ++ "_").data

/-- A name splits as prefix ++ keyId ++ suffix at the character level. -/
theorem outName_data (k : KindTag) (u : Use) (a : Alg) (kid : String) (p : Bool) :
    (outName k u a kid p).data =
      outPfxData k u a ++ (kid.data ++ (suffixStr p).data) := by
  cases p <;>
    simp [outName, outPfxData, suffixStr, String.data_append, List.append_assoc]

deriving instance Fintype for KindTag
deriving instance Fintype for Use
deriving instance Fintype for Alg

set_option maxRecDepth 100000 in
/-- Across all kind/use/algorithm combinations, one name prefix is a prefix
of another only when the combinations coincide (in particular `RSA-OAEP` vs
`RSA-OAEP-256`, `ECDH-ES` vs its `+AxxxKW` variants, `RSA1_5`'s inner
underscore, and `jwk` vs `jwks` never confuse the decomposition). -/
theorem outPfx_prefix_eq :
    ∀ c₁ c₂ : KindTag × Use × Alg,
      outPfxData c₁.1 c₁.2.1 c₁.2.2 <+: outPfxData c₂.1 c₂.2.1 c₂.2.2 → c₁ = c₂ := by
  decide

/-- C8 fails as stated: two distinct (use, algorithm, keyId, kind,
public/private) tuples — keyId `x` public versus keyId `x-pub` private —
collide on the same output filename. -/
theorem c8_counterexample :
    outName .jwk .sig .ES256 "x" true = outName .jwk .sig .ES256 "x-pub" false ∧
    ("x", true) ≠ ("x-pub", false) := by
  constructor
  · rfl
  · decide

/-- C8 (amended): the naming function is injective on tuples whose
caller-supplied keyId does not end in `-pub`; the counterexample's pattern —
same kind, use and algorithm, one tuple public and the other private with the
private keyId equal to the public keyId followed by `-pub` — is the only way
two distinct tuples collide. -/
theorem c8_name_injective_amended
    (k₁ k₂ : KindTag) (u₁ u₂ : Use) (a₁ a₂ : Alg) (kid₁ kid₂ : String) (p₁ p₂ : Bool)
    (h₁ : ¬ "-pub".data <:+ kid₁.data) (h₂ : ¬ "-pub".data <:+ kid₂.data)
    (heq : outName k₁ u₁ a₁ kid₁ p₁ = outName k₂ u₂ a₂ kid₂ p₂) :
    k₁ = k₂ ∧ u₁ = u₂ ∧ a₁ = a₂ ∧ kid₁ = kid₂ ∧ p₁ = p₂ := by
  have hd := congrArg String.data heq
  rw [outName_data, outName_data] at hd
  have hcombo : (k₁, u₁, a₁) = (k₂, u₂, a₂) := by
    rcases List.append_eq_append_iff.mp hd with ⟨m, hm, _⟩ | ⟨m, hm, _⟩
    · exact outPfx_prefix_eq (k₁, u₁, a₁) (k₂, u₂, a₂) ⟨m, hm.symm⟩
    · exact (outPfx_prefix_eq (k₂, u₂, a₂) (k₁, u₁, a₁) ⟨m, hm.symm⟩).symm
  rw [Prod.mk.injEq, Prod.mk.injEq] at hcombo
  obtain ⟨hk, hu, ha⟩ := hcombo
  subst hk
  subst hu
  subst ha
  have hrest : kid₁.data ++ (suffixStr p₁).data = kid₂.data ++ (suffixStr p₂).data :=
    List.append_cancel_left hd
  have hsplit : (['-', 'p', 'u', 'b', '.', 'j', 's', 'o', 'n'] : List Char) =
      ['-', 'p', 'u', 'b'] ++ ['.', 'j', 's', 'o', 'n'] := rfl
  cases p₁ <;> cases p₂ <;> simp only [suffixStr] at hrest
  · exact ⟨rfl, rfl, rfl, String.ext (List.append_cancel_right hrest), rfl⟩
  · rw [hsplit, ← List.append_assoc] at hrest
    exact absurd ⟨kid₂.data, (List.append_cancel_right hrest).symm⟩ h₁
  · rw [hsplit, ← List.append_assoc] at hrest
    exact absurd ⟨kid₁.data, List.append_cancel_right hrest⟩ h₂
  · exact ⟨rfl, rfl, rfl, String.ext (List.append_cancel_right hrest), rfl⟩

/-- Witness for `c8_name_injective_amended` at concrete inputs. -/
theorem c8_name_injective_amended_witness :
    KindTag.jwk = KindTag.jwk ∧ Use.sig = Use.sig ∧ Alg.ES256 = Alg.ES256 ∧
      "kid1" = "kid1" ∧ true = true :=
  c8_name_injective_amended .jwk .jwk .sig .sig .ES256 .ES256 "kid1" "kid1" true true
    (by decide) (by decide) rfl

end JwkKeygen
